import Mathlib

/-!
Shallow embedding of `code/chain_server/trt_llm.py`: a LangChain LLM adapter
(`TensorRTLLM`) over a Triton gRPC client (`TritonClient`), together with
proofs about the streaming drain loop, the stream callback, parameter
plumbing, model loading and the concurrency computation.
-/

/-- The items `TensorRTLLM._call` reads from `result_queue`:
a dict `{"OUTPUT_0": s}` (a streamed token), an `InferenceServerException`
put there by `TritonClient.stream_callback` on error, or the `None`
sentinel marking the end of the generation. -/
inductive Event where
  | token (payload : String)
  | errorEvent
  | endOfStream
  deriving DecidableEq

/-- `STOP_WORDS` module constant (trt_llm.py line 161). -/
def STOP_WORDS : List String := ["</s>"]

/-- Observable outcome of the drain loop in `TensorRTLLM._call`
(trt_llm.py lines 140-158):
`response` is the returned string; `forwarded` lists the arguments passed to
`text_callback` in call order; `consumed` counts `result_queue.get()` calls;
`closed` records whether `self.client.close_streaming()` was called (the
loop broke on a terminal item).  An empty remaining stream means
`queue.get()` blocks forever; that case is marked `closed = false`. -/
structure DrainResult where
  response : String
  forwarded : List String
  consumed : Nat
  closed : Bool
  deriving DecidableEq

/-- The `while True` drain loop of `TensorRTLLM._call` (lines 140-158).
`text_callback` is true when a `run_manager` was supplied (line 124-126).
Faithful points: the stop-word test updates `send_tokens` before the send
test; the callback guard is `if text_callback and send_tokens`; BOTH the
callback invocation and `response = response + token` sit inside that
guard; the `"<0x0A>"` to newline normalization also sits inside it. -/
def drainLoop (text_callback : Bool) : List Event → Bool → String → List String → DrainResult
  | [], _, response, forwarded => ⟨response, forwarded.reverse, 0, false⟩
  | Event.endOfStream :: _, _, response, forwarded => ⟨response, forwarded.reverse, 1, true⟩
  | Event.errorEvent :: _, _, response, forwarded => ⟨response, forwarded.reverse, 1, true⟩
  | Event.token payload :: rest, send_tokens, response, forwarded =>
      let send2 := if payload ∈ STOP_WORDS then false else send_tokens
      if text_callback && send2 then
        let tok := if payload = "<0x0A>" then "\n" else payload
        let r := drainLoop text_callback rest send2 (response ++ tok) (tok :: forwarded)
        ⟨r.response, r.forwarded, r.consumed + 1, r.closed⟩
      else
        let r := drainLoop text_callback rest send2 response forwarded
        ⟨r.response, r.forwarded, r.consumed + 1, r.closed⟩

/-- `TensorRTLLM._call` seen from the event stream: `run_manager` tells
whether a callback manager was passed (so `text_callback` is non-None),
`events` is the sequence of queue items produced by the server callback.
Initial state: `response = ""`, `send_tokens = True`. -/
def TensorRTLLM_call (run_manager : Bool) (events : List Event) : DrainResult :=
  drainLoop run_manager events true "" []

/-- Number of `result_queue.get()` calls a drain performs on `events` once
token sending is irrelevant: every event up to and including the first
terminal one (error or `None`). -/
def consumedUntil : List Event → Nat
  | [] => 0
  | Event.endOfStream :: _ => 1
  | Event.errorEvent :: _ => 1
  | Event.token _ :: rest => consumedUntil rest + 1

/-- Whether the stream contains a terminal item (so the drain loop breaks
and `close_streaming` runs). -/
def reachesTerminal : List Event → Bool
  | [] => false
  | Event.endOfStream :: _ => true
  | Event.errorEvent :: _ => true
  | Event.token _ :: rest => reachesTerminal rest

/-- A server push as seen by `TritonClient.stream_callback` (lines 226-243):
`error` is the truthiness of the `error` argument; `outputs` is
`some payload` when the JSON response has an `"outputs"` key, with `payload`
the text `process_result` decodes from it (tensor decoding itself is out of
scope per the spec, so the decoded text is carried directly); `finalFlag`
is `response["parameters"]["triton_final_response"]["bool_param"]`. -/
structure Push where
  error : Bool
  outputs : Option String
  finalFlag : Bool
  deriving DecidableEq

/-- `TritonClient.stream_callback`: the queue items it puts for one push, in
order.  On error it puts the error object (modeled `Event.errorEvent`) and
reads nothing else; otherwise it puts the processed result when outputs are
present, then the `None` sentinel when the final flag is set. -/
def stream_callback (p : Push) : List Event :=
  if p.error then [Event.errorEvent]
  else
    (match p.outputs with
      | some s => [Event.token s]
      | none => []) ++
    (if p.finalFlag then [Event.endOfStream] else [])

/-- Whether an event is a data (token) event. -/
def isData : Event → Bool
  | Event.token _ => true
  | _ => false

/-- An instance group of a Triton model config: `{"count": n, "gpus": [...]}`. -/
structure InstanceGroup where
  count : Nat
  gpus : List Nat
  deriving DecidableEq

/-- The concurrency computation of `TritonClient.get_model_concurrency`
(line 202): `sum(instance["count"] * len(instance["gpus"]) for instance in
instances)`, where `instances` is the config's `instance_group` list.  (The
method first ensures the model is loaded via `load_model`, modeled
separately; the claim concerns this sum.) -/
def get_model_concurrency (instances : List InstanceGroup) : Nat :=
  (instances.map (fun g => g.count * g.gpus.length)).sum

/-- The error raised by `TritonClient.load_model` on timeout (line 189):
`RuntimeError(f"Failed to load {model_name} on Triton in {timeout}s")`.
`seconds` is the number interpolated into the message; the source
interpolates the `timeout` argument there. -/
structure LoadErr where
  model_name : String
  seconds : ℚ
  deriving DecidableEq

/-- Observable outcome of one `TritonClient.load_model` call:
`load_commands` counts `self.client.load_model` commands issued; `outcome`
is `some e` when a `RuntimeError` was raised and `none` on normal return;
`elapsed` is the final `t1 - t0` when the polling loop ran (`none` on the
early return that skips the loop). -/
structure LoadResult where
  load_commands : Nat
  outcome : Option LoadErr
  elapsed : Option ℚ
  deriving DecidableEq

/-- The busy-wait loop of `TritonClient.load_model` (lines 184-187):
`while not self.client.is_model_ready(model_name) and t1 - t0 < timeout:
t1 = time.perf_counter()`.  `ready n` is the result of the n-th
`is_model_ready` call of the whole `load_model` call (the loop's polls
start at index `ri`); `clock n` is the n-th `perf_counter()` reading (the
loop's readings start at index `ci`; `clock 0` was `t0`).  `fuel` bounds
the number of iterations modeled; `none` means the loop was still running
after `fuel` iterations.  On exit it returns the final `t1` and the index
of the next readiness poll. -/
def load_poll_loop (ready : Nat → Bool) (clock : Nat → ℚ) (t0 timeout : ℚ) :
    Nat → ℚ → Nat → Nat → Option (ℚ × Nat)
  | 0, _, _, _ => none
  | fuel + 1, t1, ri, ci =>
      if ready ri then some (t1, ri + 1)
      else if t1 - t0 < timeout then
        load_poll_loop ready clock t0 timeout fuel (clock ci) (ri + 1) (ci + 1)
      else some (t1, ri + 1)

/-- `TritonClient.load_model` (lines 177-189): if the model is already
ready, return at once without issuing a load command; otherwise issue one
load command, busy-wait on readiness bounded by `timeout`, and raise
`RuntimeError` naming the model and the `timeout` value if the model is
still not ready. -/
def load_model (ready : Nat → Bool) (clock : Nat → ℚ) (model_name : String)
    (timeout : ℚ) (fuel : Nat) : Option LoadResult :=
  if ready 0 then some ⟨0, none, none⟩
  else
    let t0 := clock 0
    match load_poll_loop ready clock t0 timeout fuel t0 1 1 with
    | none => none
    | some (t1, ri) =>
        if ready ri then some ⟨1, none, some (t1 - t0)⟩
        else some ⟨1, some ⟨model_name, timeout⟩, some (t1 - t0)⟩

/-- Concrete `perf_counter` readings 0, 600, 1500, 1500, ... used to show
the timeout error reports the bound, not the measured elapsed time. -/
def clockCX : Nat → ℚ :=
  fun n => if n = 0 then 0 else if n = 1 then 600 else 1500

/-- The dict returned by `TensorRTLLM._get_model_default_parameters`
(lines 76-85); values for the numeric generation knobs. -/
structure GenDefaults where
  tokens : ℚ
  top_k : ℚ
  top_p : ℚ
  temperature : ℚ
  repetition_penalty : ℚ
  length_penalty : ℚ
  beam_width : ℚ
  deriving DecidableEq

/-- The adapter's field defaults (lines 51-57): tokens 100, top_k 1,
top_p 0, temperature 1.0, repetition_penalty 1.0, length_penalty 1.0,
beam_width 1. -/
def adapterDefaults : GenDefaults := ⟨100, 1, 0, 1, 1, 1, 1⟩

/-- Per-call `**kwargs` overrides reaching `_call`.  `random_seed` is
listed because the claim names it; it is not a key of
`_get_model_default_parameters` and not a parameter of `generate_inputs`. -/
structure Overrides where
  tokens : Option ℚ
  top_k : Option ℚ
  top_p : Option ℚ
  temperature : Option ℚ
  repetition_penalty : Option ℚ
  length_penalty : Option ℚ
  beam_width : Option ℚ
  random_seed : Option ℚ
  deriving DecidableEq

/-- `RANDOM_SEED` module constant (line 163). -/
def RANDOM_SEED : ℚ := 0

/-- The ten request tensors built by `TritonClient.generate_inputs`
(lines 300-342), by tensor name (`query` is `INPUT_0`,
`request_output_len` is `INPUT_1`); each numeric tensor holds the single
value recorded here. -/
structure RequestTensors where
  query : List (List String)
  request_output_len : ℚ
  runtime_top_k : ℚ
  runtime_top_p : ℚ
  temperature : ℚ
  len_penalty : ℚ
  repetition_penalty : ℚ
  random_seed : ℚ
  beam_width : ℚ
  streaming : Bool
  deriving DecidableEq

/-- `TritonClient.generate_inputs`: the prompt value and seven numeric
arguments populate their tensors; `random_seed` is populated from the
module constant `RANDOM_SEED` (line 326) — the function has no
`random_seed` parameter — and `streaming` is fixed to true. -/
def generate_inputs (prompt : List (List String))
    (tokens temperature top_k top_p beam_width repetition_penalty length_penalty : ℚ) :
    RequestTensors :=
  ⟨prompt, tokens, top_k, top_p, temperature, length_penalty, repetition_penalty,
    RANDOM_SEED, beam_width, true⟩

/-- `invocation_params = self._get_model_default_parameters;
invocation_params.update(kwargs)` (lines 128-129): a kwargs key replaces
the default. -/
def mergeParams (d : GenDefaults) (o : Overrides) : GenDefaults :=
  ⟨(o.tokens).getD d.tokens, (o.top_k).getD d.top_k, (o.top_p).getD d.top_p,
   (o.temperature).getD d.temperature,
   (o.repetition_penalty).getD d.repetition_penalty,
   (o.length_penalty).getD d.length_penalty, (o.beam_width).getD d.beam_width⟩

/-- The request-construction path of `_call`: merge defaults with kwargs,
set `invocation_params["prompt"] = [[prompt]]`, and call
`generate_inputs(**invocation_params)` via `request_streaming`.  A kwargs
key that is not a parameter of `generate_inputs` — such as `random_seed` —
makes that Python call raise `TypeError: unexpected keyword argument`,
modeled as `Except.error`. -/
def buildRequest (d : GenDefaults) (o : Overrides) (prompt : String) :
    Except String RequestTensors :=
  match o.random_seed with
  | some _ => Except.error "TypeError: generate_inputs got an unexpected keyword argument"
  | none =>
      let p := mergeParams d o
      Except.ok (generate_inputs [[prompt]] p.tokens p.temperature p.top_k p.top_p
        p.beam_width p.repetition_penalty p.length_penalty)

/-- C1: the claim says `_call` returns the concatenation of non-stop token
payloads regardless of whether `run_manager` is supplied.  The code appends
to `response` only inside `if text_callback and send_tokens`, so with
`run_manager = None` it returns `""` for every stream; with a callback the
same stream returns the concatenation.  This theorem exhibits the failing
input and the divergence. -/
theorem c1_call_drops_output_without_callback :
    (TensorRTLLM_call false [Event.token "Hello", Event.endOfStream]).response = "" ∧
    (TensorRTLLM_call true [Event.token "Hello", Event.endOfStream]).response = "Hello" := by
  constructor
  · decide
  · decide

/-- Once `send_tokens` is false, the drain loop appends nothing, forwards
nothing, but keeps consuming queue items until the first terminal one. -/
theorem drainLoop_suppressed (tc : Bool) (events : List Event) (response : String)
    (forwarded : List String) :
    drainLoop tc events false response forwarded =
      ⟨response, forwarded.reverse, consumedUntil events, reachesTerminal events⟩ := by
  induction events generalizing response forwarded with
  | nil => rfl
  | cons e rest ih =>
      cases e with
      | token payload =>
          simp [drainLoop, consumedUntil, reachesTerminal, ih]
      | errorEvent => rfl
      | endOfStream => rfl

/-- C2 (amended: the claimed output of the synthetic stream requires a token
callback to be supplied, since the code appends only under
`if text_callback and send_tokens`): once a stop word arrives, neither it
nor any later token is appended or forwarded, yet the loop keeps consuming
until the terminal event; the synthetic stream
`["Hello", " world", "</s>", " ignored"]` followed by the end sentinel
yields `"Hello world"` when a callback is supplied. -/
theorem c2_stop_suppression :
    (∀ (tc : Bool) (w : String) (rest : List Event) (response : String)
        (forwarded : List String), w ∈ STOP_WORDS →
        drainLoop tc (Event.token w :: rest) true response forwarded =
          ⟨response, forwarded.reverse, consumedUntil rest + 1, reachesTerminal rest⟩) ∧
    (TensorRTLLM_call true [Event.token "Hello", Event.token " world",
        Event.token "</s>", Event.token " ignored", Event.endOfStream]).response
      = "Hello world" := by
  constructor
  · intro tc w rest response forwarded hw
    simp [drainLoop, hw, drainLoop_suppressed]
  · decide

/-- Witness for C2's theorem at `w = "</s>"`, `rest = [EndOfStream]`. -/
theorem c2_stop_suppression_witness :
    "</s>" ∈ STOP_WORDS ∧
    drainLoop true (Event.token "</s>" :: [Event.endOfStream]) true "Hi" ["Hi"] =
      ⟨"Hi", ["Hi"].reverse, consumedUntil [Event.endOfStream] + 1,
        reachesTerminal [Event.endOfStream]⟩ :=
  ⟨by decide, c2_stop_suppression.1 true "</s>" [Event.endOfStream] "Hi" ["Hi"] (by decide)⟩

/-- C2 counterexample: the claim as stated fails on the code when no token
callback is supplied (`run_manager = None`): the synthetic stream then
yields `""`, not `"Hello world"`, because the accumulation statement sits
inside `if text_callback and send_tokens`. -/
theorem c2_counterexample_no_callback :
    ¬ (TensorRTLLM_call false [Event.token "Hello", Event.token " world",
        Event.token "</s>", Event.token " ignored", Event.endOfStream]).response
      = "Hello world" := by
  decide

/-- C5 counterexample: the claim as stated fails when no token callback is
supplied (`run_manager = None`): the stream `["foo", ERROR]` then yields
`""`, not `"foo"`. -/
theorem c5_counterexample_no_callback :
    ¬ (TensorRTLLM_call false [Event.token "foo", Event.errorEvent]).response = "foo" := by
  decide

/-- C5 (amended: with a token callback supplied): on the stream
`["foo", ERROR]` the drain stops at the error (2 queue reads), calls
`close_streaming`, returns the accumulated `"foo"`, and returns normally
(the loop breaks on the exception item instead of raising). -/
theorem c5_error_mid_stream :
    TensorRTLLM_call true [Event.token "foo", Event.errorEvent] =
      ⟨"foo", ["foo"], 2, true⟩ := by
  decide

/-- C9 counterexample: the claim as stated fails when no token callback is
supplied: nothing is accumulated at all, so `"<0x0A>"` is not rendered as a
newline in the output. -/
theorem c9_counterexample_no_callback :
    ¬ (TensorRTLLM_call false [Event.token "<0x0A>", Event.endOfStream]).response = "\n" := by
  decide

/-- C9 (amended: with a token callback supplied and suppression not yet
triggered): a `"<0x0A>"` token is appended to the response as `"\n"` and the
value delivered to the callback is `"\n"`; the drain then continues
unchanged. -/
theorem c9_newline_normalization (response : String) (forwarded : List String)
    (rest : List Event) :
    (drainLoop true (Event.token "<0x0A>" :: rest) true response forwarded).response =
      (drainLoop true rest true (response ++ "\n") ("\n" :: forwarded)).response ∧
    (drainLoop true (Event.token "<0x0A>" :: rest) true response forwarded).forwarded =
      (drainLoop true rest true (response ++ "\n") ("\n" :: forwarded)).forwarded ∧
    (drainLoop true (Event.token "<0x0A>" :: rest) true response forwarded).consumed =
      (drainLoop true rest true (response ++ "\n") ("\n" :: forwarded)).consumed + 1 ∧
    (drainLoop true (Event.token "<0x0A>" :: rest) true response forwarded).closed =
      (drainLoop true rest true (response ++ "\n") ("\n" :: forwarded)).closed := by
  have hmem : ¬ ("<0x0A>" ∈ STOP_WORDS) := by decide
  simp [drainLoop, hmem]

/-- C10: stop-word suppression tests exact membership of the token in
`STOP_WORDS = ["</s>"]` (Python `token in STOP_WORDS`).  A token that
contains `"</s>"` as a proper substring (so it is not equal to `"</s>"`)
does not trigger suppression and is appended and forwarded unchanged, the
drain continuing with `send_tokens` still true. -/
theorem c10_exact_stop_word_match (t : String)
    (hsub : List.IsInfix ("</s>".data) t.data) (hne : t ≠ "</s>")
    (response : String) (forwarded : List String) (rest : List Event) :
    (drainLoop true (Event.token t :: rest) true response forwarded).response =
      (drainLoop true rest true (response ++ t) (t :: forwarded)).response ∧
    (drainLoop true (Event.token t :: rest) true response forwarded).forwarded =
      (drainLoop true rest true (response ++ t) (t :: forwarded)).forwarded ∧
    (drainLoop true (Event.token t :: rest) true response forwarded).consumed =
      (drainLoop true rest true (response ++ t) (t :: forwarded)).consumed + 1 ∧
    (drainLoop true (Event.token t :: rest) true response forwarded).closed =
      (drainLoop true rest true (response ++ t) (t :: forwarded)).closed := by
  have hhex : t ≠ "<0x0A>" := by
    intro he
    rw [he] at hsub
    revert hsub
    decide
  have hmem : ¬ (t ∈ STOP_WORDS) := by
    simp [STOP_WORDS, hne]
  simp [drainLoop, hmem, hhex]

/-- Witness for C10's theorem at the token `"x</s>"`. -/
theorem c10_exact_stop_word_match_witness :
    List.IsInfix ("</s>".data) ("x</s>".data) ∧ "x</s>" ≠ "</s>" ∧
    (drainLoop true (Event.token "x</s>" :: [Event.endOfStream]) true "" []).response =
      (drainLoop true [Event.endOfStream] true ("" ++ "x</s>") ["x</s>"]).response :=
  ⟨by decide, by decide,
    (c10_exact_stop_word_match "x</s>" (by decide) (by decide) "" [] [Event.endOfStream]).1⟩

/-- C6: per push, `stream_callback` enqueues: exactly one error event and no
data event on an error push; exactly one data event when output data is
present; the end sentinel last when the final flag is set (after any data
from the same push), and no sentinel otherwise; a final-flag push with no
data yields the sentinel alone, and one with data yields the data event then
the sentinel. -/
theorem c6_stream_callback_per_push (p : Push) :
    (p.error = true → stream_callback p = [Event.errorEvent]) ∧
    (p.error = false →
      (stream_callback p).countP isData = (if p.outputs.isSome then 1 else 0) ∧
      (∀ s, p.outputs = some s → Event.token s ∈ stream_callback p) ∧
      (p.finalFlag = true → (stream_callback p).getLast? = some Event.endOfStream) ∧
      (p.finalFlag = false → ¬ (Event.endOfStream ∈ stream_callback p)) ∧
      (p.outputs = none → p.finalFlag = true → stream_callback p = [Event.endOfStream]) ∧
      (∀ s, p.outputs = some s → p.finalFlag = true →
        stream_callback p = [Event.token s, Event.endOfStream])) := by
  obtain ⟨e, o, f⟩ := p
  cases e <;> cases o <;> cases f <;>
    simp [stream_callback, isData, List.countP, List.countP.go]

/-- Witness for C6's theorem: an error push, a data-plus-final push, and a
final-only push. -/
theorem c6_stream_callback_per_push_witness :
    stream_callback ⟨true, some "x", true⟩ = [Event.errorEvent] ∧
    stream_callback ⟨false, some "tok", true⟩ = [Event.token "tok", Event.endOfStream] ∧
    stream_callback ⟨false, none, true⟩ = [Event.endOfStream] :=
  ⟨(c6_stream_callback_per_push ⟨true, some "x", true⟩).1 rfl,
   ((c6_stream_callback_per_push ⟨false, some "tok", true⟩).2 rfl).2.2.2.2.2 "tok" rfl rfl,
   ((c6_stream_callback_per_push ⟨false, none, true⟩).2 rfl).2.2.2.2.1 rfl rfl⟩

/-- C7: the concurrency of a model config is the sum over its instance
groups of count times number of assigned devices: the empty config yields 0,
each group contributes `count * gpus.length`, a group with an empty device
list contributes 0 (no crash), and the example
`[{count:2, gpus:[0,1]}, {count:1, gpus:[0]}]` yields 5. -/
theorem c7_model_concurrency :
    get_model_concurrency [] = 0 ∧
    (∀ (g : InstanceGroup) (gs : List InstanceGroup),
        get_model_concurrency (g :: gs) =
          g.count * g.gpus.length + get_model_concurrency gs) ∧
    (∀ (c : Nat) (gs : List InstanceGroup),
        get_model_concurrency (⟨c, []⟩ :: gs) = get_model_concurrency gs) ∧
    get_model_concurrency [⟨2, [0, 1]⟩, ⟨1, [0]⟩] = 5 := by
  refine ⟨rfl, ?_, ?_, by decide⟩
  · intro g gs
    simp [get_model_concurrency]
  · intro c gs
    simp [get_model_concurrency]

/-- C8: when the model is already reported ready at call time,
`load_model` returns immediately: zero load commands, no error, and the
polling loop (hence the clock) is never touched — so a second consecutive
call on a ready model performs no load. -/
theorem c8_load_model_idempotent (ready : Nat → Bool) (clock : Nat → ℚ)
    (model_name : String) (timeout : ℚ) (fuel : Nat) (h : ready 0 = true) :
    load_model ready clock model_name timeout fuel = some ⟨0, none, none⟩ := by
  simp [load_model, h]

/-- Witness for C8's theorem: an always-ready server. -/
theorem c8_load_model_idempotent_witness :
    (fun _ : Nat => true) 0 = true ∧
    load_model (fun _ => true) (fun _ => 0) "llama" 1000 3 = some ⟨0, none, none⟩ :=
  ⟨rfl, c8_load_model_idempotent (fun _ => true) (fun _ => 0) "llama" 1000 3 rfl⟩

/-- If readiness never holds, the busy-wait loop exits as soon as a clock
reading reaches `t0 + timeout` (given fuel past that reading), with the
final `t1` at least `timeout` past `t0`. -/
theorem load_poll_loop_expires (ready : Nat → Bool) (clock : Nat → ℚ) (t0 timeout : ℚ)
    (hready : ∀ n, ready n = false) :
    ∀ (fuel : Nat) (t1 : ℚ) (ri ci : Nat),
      (timeout ≤ t1 - t0 ∨ ∃ k, k < fuel ∧ timeout ≤ clock (ci + k) - t0) →
      ∃ p, load_poll_loop ready clock t0 timeout (fuel + 1) t1 ri ci = some p ∧
        timeout ≤ p.1 - t0 := by
  intro fuel
  induction fuel with
  | zero =>
      intro t1 ri ci h
      rcases h with h | ⟨k, hk, _⟩
      · exact ⟨(t1, ri + 1), by simp [load_poll_loop, hready ri, not_lt.mpr h], h⟩
      · exact absurd hk (Nat.not_lt_zero k)
  | succ fuel ih =>
      intro t1 ri ci h
      by_cases hlt : t1 - t0 < timeout
      · have h2 : timeout ≤ clock ci - t0 ∨
            ∃ k, k < fuel ∧ timeout ≤ clock ((ci + 1) + k) - t0 := by
          rcases h with h | ⟨k, hk, hck⟩
          · exact absurd h (not_le.mpr hlt)
          · cases k with
            | zero => exact Or.inl (by simpa using hck)
            | succ j =>
                refine Or.inr ⟨j, by omega, ?_⟩
                have hidx : ci + (j + 1) = (ci + 1) + j := by omega
                rwa [hidx] at hck
        obtain ⟨p, hp, hle⟩ := ih (clock ci) (ri + 1) (ci + 1) h2
        have hstep : load_poll_loop ready clock t0 timeout (fuel + 1 + 1) t1 ri ci =
            load_poll_loop ready clock t0 timeout (fuel + 1) (clock ci) (ri + 1) (ci + 1) := by
          rw [load_poll_loop]
          simp [hready ri, hlt]
        exact ⟨p, hstep.trans hp, hle⟩
      · exact ⟨(t1, ri + 1), by simp [load_poll_loop, hready ri, hlt], not_lt.mp hlt⟩

/-- C4 (amended: the error carries the model name and the configured
timeout bound, not the measured elapsed seconds): if the readiness query
never returns true and some clock reading within the modeled fuel reaches
`timeout` past the start, `load_model` terminates (does not loop forever),
issues exactly one load command, and raises an error carrying the model
name and the timeout value; the elapsed time at exit is at least
`timeout`. -/
theorem c4_load_model_timeout (ready : Nat → Bool) (clock : Nat → ℚ)
    (model_name : String) (timeout : ℚ) (fuel : Nat)
    (hready : ∀ n, ready n = false)
    (hclock : ∃ k, k + 1 < fuel ∧ timeout ≤ clock (1 + k) - clock 0) :
    ∃ r, load_model ready clock model_name timeout fuel = some r ∧
      r.load_commands = 1 ∧ r.outcome = some ⟨model_name, timeout⟩ ∧
      ∃ e, r.elapsed = some e ∧ timeout ≤ e := by
  obtain ⟨k, hkf, hck⟩ := hclock
  cases fuel with
  | zero => exact absurd hkf (by omega)
  | succ f =>
      obtain ⟨p, hp, hle⟩ :=
        load_poll_loop_expires ready clock (clock 0) timeout hready f (clock 0) 1 1
          (Or.inr ⟨k, by omega, hck⟩)
      obtain ⟨t1, ri⟩ := p
      refine ⟨⟨1, some ⟨model_name, timeout⟩, some (t1 - clock 0)⟩, ?_, rfl, rfl,
        t1 - clock 0, rfl, hle⟩
      simp [load_model, hready 0, hp, hready ri]

/-- Witness for C4's amended theorem: a never-ready server with clock
readings 0, 2000, 4000, ... and timeout 1000. -/
theorem c4_load_model_timeout_witness :
    (∃ k, k + 1 < 3 ∧ (1000 : ℚ) ≤ (fun n : Nat => (2000 : ℚ) * n) (1 + k) -
        (fun n : Nat => (2000 : ℚ) * n) 0) ∧
    ∃ r, load_model (fun _ => false) (fun n : Nat => (2000 : ℚ) * n) "m" 1000 3 = some r ∧
      r.load_commands = 1 ∧ r.outcome = some ⟨"m", 1000⟩ ∧
      ∃ e, r.elapsed = some e ∧ (1000 : ℚ) ≤ e :=
  ⟨⟨0, by norm_num, by norm_num⟩,
   c4_load_model_timeout (fun _ => false) (fun n : Nat => (2000 : ℚ) * n) "m" 1000 3
     (fun _ => rfl) ⟨0, by norm_num, by norm_num⟩⟩

/-- C4 counterexample: on a never-ready model with readings 0, 600, 1500
and timeout 1000, the raised error reports 1000 seconds (the timeout
argument interpolated into the message) while the measured elapsed time at
exit is 1500 — the error does not carry the elapsed seconds. -/
theorem c4_counterexample_reports_bound_not_elapsed :
    load_model (fun _ => false) clockCX "m" 1000 5 =
      some ⟨1, some ⟨"m", 1000⟩, some 1500⟩ ∧ (1000 : ℚ) ≠ 1500 := by
  constructor
  · norm_num [load_model, load_poll_loop, clockCX]
  · norm_num

/-- C3 counterexample: a per-call `random_seed` override is never placed in
the request's `random_seed` tensor — `generate_inputs(**invocation_params)`
raises `TypeError` instead, since `generate_inputs` has no such
parameter. -/
theorem c3_counterexample_random_seed :
    ¬ ∃ r, buildRequest adapterDefaults
        ⟨none, none, none, none, none, none, none, some 5⟩ "p" = Except.ok r ∧
        r.random_seed = 5 := by
  rintro ⟨r, hr, -⟩
  simp [buildRequest] at hr

/-- C3 (amended: the seven parameters of `_get_model_default_parameters`
are sent verbatim with per-call overrides winning over adapter defaults;
`random_seed` is always sent as the module constant `RANDOM_SEED = 0`, is
not overridable, and an attempted override fails the call): when no
`random_seed` override is passed, the built request carries each merged
parameter value in its tensor and `RANDOM_SEED` in the seed tensor. -/
theorem c3_params_verbatim (d : GenDefaults) (o : Overrides) (prompt : String)
    (h : o.random_seed = none) :
    ∃ r, buildRequest d o prompt = Except.ok r ∧
      r.query = [[prompt]] ∧
      r.request_output_len = (o.tokens).getD d.tokens ∧
      r.temperature = (o.temperature).getD d.temperature ∧
      r.runtime_top_k = (o.top_k).getD d.top_k ∧
      r.runtime_top_p = (o.top_p).getD d.top_p ∧
      r.beam_width = (o.beam_width).getD d.beam_width ∧
      r.repetition_penalty = (o.repetition_penalty).getD d.repetition_penalty ∧
      r.len_penalty = (o.length_penalty).getD d.length_penalty ∧
      r.random_seed = RANDOM_SEED ∧
      r.streaming = true := by
  obtain ⟨t, k, pp, tmp, rp, lp, bw, rs⟩ := o
  cases rs with
  | some v => exact absurd h (by simp)
  | none => exact ⟨_, rfl, rfl, rfl, rfl, rfl, rfl, rfl, rfl, rfl, rfl, rfl⟩

/-- Witness for C3's amended theorem: overrides for tokens, top_p and
beam_width against the adapter defaults. -/
theorem c3_params_verbatim_witness :
    (⟨some 42, none, some (1/2), none, none, none, some 4, none⟩ : Overrides).random_seed
      = none ∧
    ∃ r, buildRequest adapterDefaults
        ⟨some 42, none, some (1/2), none, none, none, some 4, none⟩ "hi" = Except.ok r ∧
      r.query = [["hi"]] ∧
      r.request_output_len = 42 ∧
      r.temperature = 1 ∧
      r.runtime_top_k = 1 ∧
      r.runtime_top_p = 1/2 ∧
      r.beam_width = 4 ∧
      r.repetition_penalty = 1 ∧
      r.len_penalty = 1 ∧
      r.random_seed = 0 ∧
      r.streaming = true := by
  refine ⟨rfl, ?_⟩
  obtain ⟨r, h1, h2⟩ := c3_params_verbatim adapterDefaults
    ⟨some 42, none, some (1/2), none, none, none, some 4, none⟩ "hi" rfl
  exact ⟨r, h1, by simpa [adapterDefaults, RANDOM_SEED] using h2⟩
